import Mathlib

/-!
Verification of the `google-classroom` data-model crate.

The crate is a collection of serde-(de)serializable data-transfer types.
We shallow-embed the JSON wire values, the serde-derive behaviour of the
relevant structs and enums, and the hand-written `OwnerId`
serializer/deserializer, and prove the specified properties about them.
-/

/-- A JSON value, the wire format serde serializes to / deserializes from.
Objects are ordered association lists, as produced by serialization. -/
inductive Json where
  | null
  | bool (b : Bool)
  | num (n : Int)
  | str (s : String)
  | arr (elems : List Json)
  | obj (fields : List (String × Json))

/-- Look up the first field with the given key in a JSON object field list
(serde reads fields by name). -/
def findField (k : String) : List (String × Json) → Option Json
  | [] => none
  | (k', v) :: rest => if k' = k then some v else findField k rest

/-- The keys of a JSON object, in emission order. -/
def Json.keys : Json → List String
  | .obj fields => fields.map Prod.fst
  | _ => []

/-- Look up a key in a JSON object value. -/
def Json.lookupKey (j : Json) (k : String) : Option Json :=
  match j with
  | .obj fields => findField k fields
  | _ => none

/-- Extract the string payload of a JSON string value. -/
def getStr : Json → Option String
  | .str s => some s
  | _ => none

/-- Decode a required string field of a struct: the field must be present
and hold a JSON string, otherwise the decode errors. -/
def getStrField (fields : List (String × Json)) (k : String) : Option String :=
  match findField k fields with
  | some (Json.str s) => some s
  | _ => none

/-- `OwnerId` from `src/model/courses/mod.rs`: "This is a simple wrapper
type, no guarentees are made." -/
inductive OwnerId where
  /-- Email (unchecked) -/
  | Email (email : String)
  /-- Unique numeric ID (numeric only checked in deserialization) -/
  | Id (id : String)
  /-- Specifies the current user -/
  | Me
deriving DecidableEq

/-- `impl Serialize for OwnerId`: `Email(email) => email`, `Id(id) => id`,
`Me => "me"`, passed to `serialize_str`. -/
def OwnerId.serializeStr : OwnerId → String
  | .Email email => email
  | .Id id => id
  | .Me => "me"

/-- `OwnerIdVisitor::visit_string` (owned-string deserialization path):
literal `me` check, then all-ASCII-digit check, else `Email`. -/
def OwnerIdVisitor.visit_string (v : String) : OwnerId :=
  if v = "me" then OwnerId.Me
  else if v.data.all Char.isDigit then OwnerId.Id v
  else OwnerId.Email v

/-- `OwnerIdVisitor::visit_str` (borrowed-string deserialization path):
same checks; `v.to_string()` is the identity in this embedding. -/
def OwnerIdVisitor.visit_str (v : String) : OwnerId :=
  if v = "me" then OwnerId.Me
  else if v.data.all Char.isDigit then OwnerId.Id v
  else OwnerId.Email v

/-- `impl Deserialize for OwnerId` calls
`deserializer.deserialize_string(OwnerIdVisitor)`; for a JSON string the
driver hands the text to the visitor. -/
def ownerIdDecode (v : String) : OwnerId :=
  OwnerIdVisitor.visit_str v

/-- `OwnerId` as a JSON value, via `serialize_str`. -/
def ownerIdToJson (o : OwnerId) : Json :=
  Json.str o.serializeStr

/-! ### Closed wire enums

Each Rust enum below derives `Serialize, Deserialize` with a
`SCREAMING_SNAKE_CASE` (or per-variant) rename; serde decodes the renamed
string to the matching variant and errors on any other string. We embed the
decoder as a total function into `Option`, `none` being a decode error. -/

/-- `CourseState` from `src/model/courses/mod.rs`. -/
inductive CourseState where
  | CourseStateUnspecified
  | Active
  | Archived
  | Provisioned
  | Declined
  | Suspended
deriving DecidableEq

/-- Wire name of a `CourseState` (`SCREAMING_SNAKE_CASE` rename). -/
def CourseState.toWireStr : CourseState → String
  | .CourseStateUnspecified => "COURSE_STATE_UNSPECIFIED"
  | .Active => "ACTIVE"
  | .Archived => "ARCHIVED"
  | .Provisioned => "PROVISIONED"
  | .Declined => "DECLINED"
  | .Suspended => "SUSPENDED"

/-- Decode a `CourseState` from its wire name; any other string errors. -/
def CourseState.fromWireStr (s : String) : Option CourseState :=
  if s = "COURSE_STATE_UNSPECIFIED" then some .CourseStateUnspecified
  else if s = "ACTIVE" then some .Active
  else if s = "ARCHIVED" then some .Archived
  else if s = "PROVISIONED" then some .Provisioned
  else if s = "DECLINED" then some .Declined
  else if s = "SUSPENDED" then some .Suspended
  else none

/-- `CalculationType` from `src/model/courses/mod.rs`. -/
inductive CalculationType where
  | CalculationTypeUnspecified
  | TotalPoints
  | WeightedCategories
deriving DecidableEq

/-- Decode a `CalculationType` from its wire name. -/
def CalculationType.fromWireStr (s : String) : Option CalculationType :=
  if s = "CALCULATION_TYPE_UNSPECIFIED" then some .CalculationTypeUnspecified
  else if s = "TOTAL_POINTS" then some .TotalPoints
  else if s = "WEIGHTED_CATEGORIES" then some .WeightedCategories
  else none

/-- `DisplaySetting` from `src/model/courses/mod.rs`. -/
inductive DisplaySetting where
  | DisplaySettingUnspecified
  | ShowOverallGrade
  | HideOverallGrade
  | ShowTeachersOnly
deriving DecidableEq

/-- Decode a `DisplaySetting` from its wire name. -/
def DisplaySetting.fromWireStr (s : String) : Option DisplaySetting :=
  if s = "DISPLAY_SETTING_UNSPECIFIED" then some .DisplaySettingUnspecified
  else if s = "SHOW_OVERALL_GRADE" then some .ShowOverallGrade
  else if s = "HIDE_OVERALL_GRADE" then some .HideOverallGrade
  else if s = "SHOW_TEACHERS_ONLY" then some .ShowTeachersOnly
  else none

/-- `DriveFileShareMode` from `src/model/mod.rs`. -/
inductive DriveFileShareMode where
  | UnknownShareMode
  | View
  | Edit
  | StudentCopy
deriving DecidableEq

/-- Decode a `DriveFileShareMode` from its wire name. -/
def DriveFileShareMode.fromWireStr (s : String) : Option DriveFileShareMode :=
  if s = "UNKNOWN_SHARE_MODE" then some .UnknownShareMode
  else if s = "VIEW" then some .View
  else if s = "EDIT" then some .Edit
  else if s = "STUDENT_COPY" then some .StudentCopy
  else none

/-- `AssigneeMode` from `src/model/mod.rs`; the `SCREAMING_SNAKE_CASE`
rename of the (misspelled) variant `IndividiualStudents` is
`INDIVIDIUAL_STUDENTS`. -/
inductive AssigneeMode where
  | AssigneeModeUnspecified
  | AllStudents
  | IndividiualStudents
deriving DecidableEq

/-- Decode an `AssigneeMode` from its wire name. -/
def AssigneeMode.fromWireStr (s : String) : Option AssigneeMode :=
  if s = "ASSIGNEE_MODE_UNSPECIFIED" then some .AssigneeModeUnspecified
  else if s = "ALL_STUDENTS" then some .AllStudents
  else if s = "INDIVIDIUAL_STUDENTS" then some .IndividiualStudents
  else none

/-- `CourseWorkType` from `src/model/mod.rs`. -/
inductive CourseWorkType where
  | CourseWorkTypeUnspecified
  | Assignment
  | ShortAnswerQuestion
  | MultipleChoiceQuestion
deriving DecidableEq

/-- Decode a `CourseWorkType` from its wire name. -/
def CourseWorkType.fromWireStr (s : String) : Option CourseWorkType :=
  if s = "COURSE_WORK_TYPE_UNSPECIFIED" then some .CourseWorkTypeUnspecified
  else if s = "ASSIGNMENT" then some .Assignment
  else if s = "SHORT_ANSWER_QUESTION" then some .ShortAnswerQuestion
  else if s = "MULTIPLE_CHOICE_QUESTION" then some .MultipleChoiceQuestion
  else none

/-- The documented wire set of `CourseState`. -/
def courseStateWireSet : List String :=
  ["COURSE_STATE_UNSPECIFIED", "ACTIVE", "ARCHIVED", "PROVISIONED",
   "DECLINED", "SUSPENDED"]

/-- The documented wire set of `CalculationType`. -/
def calculationTypeWireSet : List String :=
  ["CALCULATION_TYPE_UNSPECIFIED", "TOTAL_POINTS", "WEIGHTED_CATEGORIES"]

/-- The documented wire set of `DisplaySetting`. -/
def displaySettingWireSet : List String :=
  ["DISPLAY_SETTING_UNSPECIFIED", "SHOW_OVERALL_GRADE",
   "HIDE_OVERALL_GRADE", "SHOW_TEACHERS_ONLY"]

/-- The documented wire set of `DriveFileShareMode`. -/
def driveFileShareModeWireSet : List String :=
  ["UNKNOWN_SHARE_MODE", "VIEW", "EDIT", "STUDENT_COPY"]

/-- The documented wire set of `AssigneeMode`. -/
def assigneeModeWireSet : List String :=
  ["ASSIGNEE_MODE_UNSPECIFIED", "ALL_STUDENTS", "INDIVIDIUAL_STUDENTS"]

/-- The documented wire set of `CourseWorkType`. -/
def courseWorkTypeWireSet : List String :=
  ["COURSE_WORK_TYPE_UNSPECIFIED", "ASSIGNMENT", "SHORT_ANSWER_QUESTION",
   "MULTIPLE_CHOICE_QUESTION"]

/-! ### Attachment types and the `Material` tagged union

From `src/model/mod.rs`: plain field bags with `camelCase` wire keys, and
`Material`, serde's externally tagged representation
`{ "<variantKey>": <payload> }`. -/

/-- `DriveFile`: Drive API file attachment. -/
structure DriveFile where
  id : String
  title : String
  alternate_link : String
  thumbnail_url : String
deriving DecidableEq

/-- Serialize a `DriveFile` (field order = declaration order). -/
def driveFileToJson (f : DriveFile) : Json :=
  Json.obj [("id", Json.str f.id), ("title", Json.str f.title),
    ("alternateLink", Json.str f.alternate_link),
    ("thumbnailUrl", Json.str f.thumbnail_url)]

/-- Deserialize a `DriveFile`: all four fields are required strings. -/
def driveFileFromJson : Json → Option DriveFile
  | Json.obj fs => do
      let id ← getStrField fs "id"
      let title ← getStrField fs "title"
      let alternate_link ← getStrField fs "alternateLink"
      let thumbnail_url ← getStrField fs "thumbnailUrl"
      pure ⟨id, title, alternate_link, thumbnail_url⟩
  | _ => none

/-- `YouTubeVideo`: YouTube video attachment. -/
structure YouTubeVideo where
  id : String
  title : String
  alternate_link : String
  thumbnail_url : String
deriving DecidableEq

/-- Serialize a `YouTubeVideo`. -/
def youTubeVideoToJson (f : YouTubeVideo) : Json :=
  Json.obj [("id", Json.str f.id), ("title", Json.str f.title),
    ("alternateLink", Json.str f.alternate_link),
    ("thumbnailUrl", Json.str f.thumbnail_url)]

/-- Deserialize a `YouTubeVideo`: all four fields are required strings. -/
def youTubeVideoFromJson : Json → Option YouTubeVideo
  | Json.obj fs => do
      let id ← getStrField fs "id"
      let title ← getStrField fs "title"
      let alternate_link ← getStrField fs "alternateLink"
      let thumbnail_url ← getStrField fs "thumbnailUrl"
      pure ⟨id, title, alternate_link, thumbnail_url⟩
  | _ => none

/-- `Link`: URL attachment. -/
structure Link where
  url : String
  title : String
  thumbnail_url : String
deriving DecidableEq

/-- Serialize a `Link`. -/
def linkToJson (f : Link) : Json :=
  Json.obj [("url", Json.str f.url), ("title", Json.str f.title),
    ("thumbnailUrl", Json.str f.thumbnail_url)]

/-- Deserialize a `Link`: all three fields are required strings. -/
def linkFromJson : Json → Option Link
  | Json.obj fs => do
      let url ← getStrField fs "url"
      let title ← getStrField fs "title"
      let thumbnail_url ← getStrField fs "thumbnailUrl"
      pure ⟨url, title, thumbnail_url⟩
  | _ => none

/-- `Form`: Google Forms attachment. -/
structure Form where
  form_url : String
  response_url : String
  thumbnail_url : String
  title : String
deriving DecidableEq

/-- Serialize a `Form`. -/
def formToJson (f : Form) : Json :=
  Json.obj [("formUrl", Json.str f.form_url),
    ("responseUrl", Json.str f.response_url),
    ("thumbnailUrl", Json.str f.thumbnail_url),
    ("title", Json.str f.title)]

/-- Deserialize a `Form`: all four fields are required strings. -/
def formFromJson : Json → Option Form
  | Json.obj fs => do
      let form_url ← getStrField fs "formUrl"
      let response_url ← getStrField fs "responseUrl"
      let thumbnail_url ← getStrField fs "thumbnailUrl"
      let title ← getStrField fs "title"
      pure ⟨form_url, response_url, thumbnail_url, title⟩
  | _ => none

/-- `Material`: tagged union over the four attachment kinds
(`camelCase` variant keys: `driveFile`, `youtubeVideo`, `link`, `form`). -/
inductive Material where
  | DriveFile (f : DriveFile)
  | YoutubeVideo (v : YouTubeVideo)
  | Link (l : Link)
  | Form (f : Form)
deriving DecidableEq

/-- Serialize a `Material`: externally tagged, a single-entry object whose
key is the active variant's discriminator. -/
def materialToJson : Material → Json
  | .DriveFile f => Json.obj [("driveFile", driveFileToJson f)]
  | .YoutubeVideo v => Json.obj [("youtubeVideo", youTubeVideoToJson v)]
  | .Link l => Json.obj [("link", linkToJson l)]
  | .Form f => Json.obj [("form", formToJson f)]

/-- Deserialize a `Material`: the payload must be a single-entry object;
the key selects the variant and any unrecognized key is a decode error. -/
def materialFromJson : Json → Option Material
  | Json.obj [(k, v)] =>
      if k = "driveFile" then (driveFileFromJson v).map Material.DriveFile
      else if k = "youtubeVideo" then
        (youTubeVideoFromJson v).map Material.YoutubeVideo
      else if k = "link" then (linkFromJson v).map Material.Link
      else if k = "form" then (formFromJson v).map Material.Form
      else none
  | _ => none

/-! ### Course write shapes

From `src/model/courses/mod.rs`: `CourseCreate` and `CourseModify`, serde
derive with `camelCase` renames. The derive has no `skip_serializing_if`,
so an unset `Option` field is serialized as JSON `null`; on deserialization
a missing or `null` `Option` field becomes unset. -/

/-- `CourseCreate`: the create shape of a course. -/
structure CourseCreate where
  id : Option String
  name : String
  «section» : Option String
  description_heading : Option String
  description : Option String
  room : Option String
  owner_id : OwnerId
  course_state : Option CourseState

/-- `CourseModify`: the modify/patch shape of a course; every field is
`Option`-typed. -/
structure CourseModify where
  name : Option String
  «section» : Option String
  description_heading : Option String
  description : Option String
  room : Option String
  owner_id : Option OwnerId
  course_state : Option CourseState

/-- serde's serialization of an `Option` field: `None` becomes `null`. -/
def optJson (f : α → Json) : Option α → Json
  | none => Json.null
  | some a => f a

/-- `CourseState` as a JSON value (its wire-name string). -/
def courseStateToJson (c : CourseState) : Json :=
  Json.str c.toWireStr

/-- Serialize a `CourseModify` (derive order, `camelCase` keys). -/
def courseModifyToJson (c : CourseModify) : Json :=
  Json.obj [("name", optJson Json.str c.name),
    ("section", optJson Json.str c.«section»),
    ("descriptionHeading", optJson Json.str c.description_heading),
    ("description", optJson Json.str c.description),
    ("room", optJson Json.str c.room),
    ("ownerId", optJson ownerIdToJson c.owner_id),
    ("courseState", optJson courseStateToJson c.course_state)]

/-- Serialize a `CourseCreate` (derive order, `camelCase` keys). -/
def courseCreateToJson (c : CourseCreate) : Json :=
  Json.obj [("id", optJson Json.str c.id),
    ("name", Json.str c.name),
    ("section", optJson Json.str c.«section»),
    ("descriptionHeading", optJson Json.str c.description_heading),
    ("description", optJson Json.str c.description),
    ("room", optJson Json.str c.room),
    ("ownerId", ownerIdToJson c.owner_id),
    ("courseState", optJson courseStateToJson c.course_state)]

/-- serde's deserialization of an `Option`-typed struct field: a missing
key or a `null` value yields the unset field; otherwise the inner decoder
runs and its failure is a decode error. -/
def decodeOptFieldWith (dec : Json → Option α) (fs : List (String × Json))
    (k : String) : Option (Option α) :=
  match findField k fs with
  | none => some none
  | some Json.null => some none
  | some j => (dec j).map some

/-- Decode an `OwnerId` JSON value: must be a string, handed to the
visitor. -/
def ownerIdFromJson (j : Json) : Option OwnerId :=
  (getStr j).map ownerIdDecode

/-- Decode a `CourseState` JSON value: must be one of the wire-name
strings. -/
def courseStateFromJson (j : Json) : Option CourseState :=
  (getStr j).bind CourseState.fromWireStr

/-- Deserialize a `CourseModify`: every field is `Option`-typed, so each
may be absent (or `null`) and decodes to unset. -/
def courseModifyFromJson : Json → Option CourseModify
  | Json.obj fs => do
      let name ← decodeOptFieldWith getStr fs "name"
      let sec ← decodeOptFieldWith getStr fs "section"
      let dh ← decodeOptFieldWith getStr fs "descriptionHeading"
      let desc ← decodeOptFieldWith getStr fs "description"
      let room ← decodeOptFieldWith getStr fs "room"
      let oid ← decodeOptFieldWith ownerIdFromJson fs "ownerId"
      let cs ← decodeOptFieldWith courseStateFromJson fs "courseState"
      pure ⟨name, sec, dh, desc, room, oid, cs⟩
  | _ => none

/-- A JSON object entry for an optionally supplied field: absent fields
contribute no entry at all. -/
def optEntry (k : String) : Option Json → List (String × Json)
  | none => []
  | some j => [(k, j)]

/-- A `CourseModify` wire payload supplying exactly the fields chosen by
the seven options (each supplied field holds a well-formed value). -/
def courseModifySubsetPayload (name sec dh desc room : Option String)
    (oid : Option String) (cs : Option CourseState) : Json :=
  Json.obj (optEntry "name" (name.map Json.str) ++
    optEntry "section" (sec.map Json.str) ++
    optEntry "descriptionHeading" (dh.map Json.str) ++
    optEntry "description" (desc.map Json.str) ++
    optEntry "room" (room.map Json.str) ++
    optEntry "ownerId" (oid.map Json.str) ++
    optEntry "courseState" (cs.map courseStateToJson))

/-! ### Owner-identifier properties -/

/-- Claim C1: the `OwnerId` decode follows a strict precedence — the
literal `"me"` yields `Me`; otherwise a text whose every character is an
ASCII digit yields `Id` holding the text unchanged; otherwise `Email`
holding the text unchanged, with no further validation. -/
theorem ownerId_decode_precedence (s : String) :
    (s = "me" → ownerIdDecode s = OwnerId.Me) ∧
    (s ≠ "me" → s.data.all Char.isDigit = true → ownerIdDecode s = OwnerId.Id s) ∧
    (s ≠ "me" → s.data.all Char.isDigit = false → ownerIdDecode s = OwnerId.Email s) := by
  refine ⟨fun h => ?_, fun h hd => ?_, fun h hd => ?_⟩
  · simp [ownerIdDecode, OwnerIdVisitor.visit_str, h]
  · simp [ownerIdDecode, OwnerIdVisitor.visit_str, h, hd]
  · simp [ownerIdDecode, OwnerIdVisitor.visit_str, h, hd]

/-- Witness for C1 at the inputs `"me"`, `"42"`, and `"a@b.c"`. -/
theorem ownerId_decode_precedence_witness :
    ownerIdDecode "me" = OwnerId.Me ∧
    ownerIdDecode "42" = OwnerId.Id "42" ∧
    ownerIdDecode "a@b.c" = OwnerId.Email "a@b.c" :=
  ⟨(ownerId_decode_precedence "me").1 rfl,
   (ownerId_decode_precedence "42").2.1 (by decide) (by decide),
   (ownerId_decode_precedence "a@b.c").2.2 (by decide) (by decide)⟩

/-- Counterexample to claim C6 as stated: the empty string decodes to
`Id ""` (the all-digit check is vacuously true on no characters), not to
`Email ""`. -/
theorem ownerId_decode_empty_cex :
    ownerIdDecode "" = OwnerId.Id "" ∧ ownerIdDecode "" ≠ OwnerId.Email "" := by
  decide

/-- Claim C6 (amended): decoding `"me"` yields `Me`; decoding any string
all of whose characters are ASCII digits — including the empty string,
which decodes to `Id ""` — yields `Id` holding that exact string; decoding
any other string besides `"me"` (such as `"me@school.edu"`) yields `Email`
holding that exact string. -/
theorem ownerId_decode_total_classification (s : String) :
    (s = "me" → ownerIdDecode s = OwnerId.Me) ∧
    (s.data.all Char.isDigit = true → ownerIdDecode s = OwnerId.Id s) ∧
    (s ≠ "me" → s.data.all Char.isDigit = false → ownerIdDecode s = OwnerId.Email s) ∧
    ownerIdDecode "me@school.edu" = OwnerId.Email "me@school.edu" := by
  refine ⟨fun h => ?_, fun hd => ?_, fun h hd => ?_, by decide⟩
  · simp [ownerIdDecode, OwnerIdVisitor.visit_str, h]
  · have h : s ≠ "me" := by rintro rfl; exact absurd hd (by decide)
    simp [ownerIdDecode, OwnerIdVisitor.visit_str, h, hd]
  · simp [ownerIdDecode, OwnerIdVisitor.visit_str, h, hd]

/-- Witness for the amended C6 at a long all-digit identifier. -/
theorem ownerId_decode_total_classification_witness :
    ownerIdDecode "108987654321098765432" = OwnerId.Id "108987654321098765432" :=
  (ownerId_decode_total_classification "108987654321098765432").2.1 (by decide)

/-- Counterexample to claim C3 as stated: `Id "student@school.edu"` is an
`Id` variant, yet it does not round-trip — it decodes back to an `Email`.
(The claim's iff asserts round-trip for every `Id` variant.) -/
theorem ownerId_roundtrip_id_nondigit_cex :
    ownerIdDecode (OwnerId.serializeStr (OwnerId.Id "student@school.edu")) =
      OwnerId.Email "student@school.edu" ∧
    ownerIdDecode (OwnerId.serializeStr (OwnerId.Id "student@school.edu")) ≠
      OwnerId.Id "student@school.edu" ∧
    ownerIdDecode (OwnerId.serializeStr OwnerId.Me) = OwnerId.Me := by
  decide

/-- Claim C3 (amended): `decode (encode v) = v` holds iff `v` is `Me`, or
`v` is an `Id` whose string is all ASCII digits, or `v` is an `Email`
whose string is neither the literal `"me"` nor all ASCII digits; `Me`
serializes to `"me"` and decoding `"me"` produces `Me`. -/
theorem ownerId_roundtrip_characterization (v : OwnerId) :
    (ownerIdDecode (OwnerId.serializeStr v) = v ↔
      v = OwnerId.Me ∨
      (∃ s, v = OwnerId.Id s ∧ s.data.all Char.isDigit = true) ∨
      (∃ s, v = OwnerId.Email s ∧ s ≠ "me" ∧ s.data.all Char.isDigit = false)) ∧
    OwnerId.serializeStr OwnerId.Me = "me" ∧
    ownerIdDecode "me" = OwnerId.Me := by
  refine ⟨?_, rfl, by decide⟩
  cases v with
  | Me => simp [ownerIdDecode, OwnerIdVisitor.visit_str, OwnerId.serializeStr]
  | Id s =>
      by_cases hme : s = "me"
      · subst hme
        have lhs : ownerIdDecode (OwnerId.serializeStr (OwnerId.Id "me")) = OwnerId.Me := by
          decide
        rw [lhs]
        constructor
        · intro h; exact absurd h (by decide)
        · rintro (h | ⟨t, ht, hdt⟩ | ⟨t, ht, _, _⟩)
          · exact absurd h (by decide)
          · injection ht with h'; subst h'; exact absurd hdt (by decide)
          · exact OwnerId.noConfusion ht
      · by_cases hd : s.data.all Char.isDigit = true
        · have lhs : ownerIdDecode (OwnerId.serializeStr (OwnerId.Id s)) = OwnerId.Id s := by
            simp [OwnerId.serializeStr, ownerIdDecode, OwnerIdVisitor.visit_str, hme, hd]
          rw [lhs]
          exact ⟨fun _ => Or.inr (Or.inl ⟨s, rfl, hd⟩), fun _ => rfl⟩
        · have hdf : s.data.all Char.isDigit = false := by
            revert hd; cases s.data.all Char.isDigit <;> simp
          have lhs : ownerIdDecode (OwnerId.serializeStr (OwnerId.Id s)) = OwnerId.Email s := by
            simp [OwnerId.serializeStr, ownerIdDecode, OwnerIdVisitor.visit_str, hme, hdf]
          rw [lhs]
          constructor
          · intro h; exact OwnerId.noConfusion h
          · rintro (h | ⟨t, ht, hdt⟩ | ⟨t, ht, _, _⟩)
            · exact OwnerId.noConfusion h
            · injection ht with h'; subst h'; rw [hdf] at hdt; exact Bool.noConfusion hdt
            · exact OwnerId.noConfusion ht
  | Email s =>
      by_cases hme : s = "me"
      · subst hme
        have lhs : ownerIdDecode (OwnerId.serializeStr (OwnerId.Email "me")) = OwnerId.Me := by
          decide
        rw [lhs]
        constructor
        · intro h; exact absurd h (by decide)
        · rintro (h | ⟨t, ht, _⟩ | ⟨t, ht, hmt, _⟩)
          · exact absurd h (by decide)
          · exact OwnerId.noConfusion ht
          · injection ht with h'; subst h'; exact absurd rfl hmt
      · by_cases hd : s.data.all Char.isDigit = true
        · have lhs : ownerIdDecode (OwnerId.serializeStr (OwnerId.Email s)) = OwnerId.Id s := by
            simp [OwnerId.serializeStr, ownerIdDecode, OwnerIdVisitor.visit_str, hme, hd]
          rw [lhs]
          constructor
          · intro h; exact OwnerId.noConfusion h
          · rintro (h | ⟨t, ht, _⟩ | ⟨t, ht, _, hdt⟩)
            · exact OwnerId.noConfusion h
            · exact OwnerId.noConfusion ht
            · injection ht with h'; subst h'; rw [hd] at hdt; exact Bool.noConfusion hdt
        · have hdf : s.data.all Char.isDigit = false := by
            revert hd; cases s.data.all Char.isDigit <;> simp
          have lhs : ownerIdDecode (OwnerId.serializeStr (OwnerId.Email s)) = OwnerId.Email s := by
            simp [OwnerId.serializeStr, ownerIdDecode, OwnerIdVisitor.visit_str, hme, hdf]
          rw [lhs]
          exact ⟨fun _ => Or.inr (Or.inr ⟨s, rfl, hme, hdf⟩), fun _ => rfl⟩

/-- Witness for the amended C3 at the all-digit identifier `"5"`. -/
theorem ownerId_roundtrip_characterization_witness :
    ownerIdDecode (OwnerId.serializeStr (OwnerId.Id "5")) = OwnerId.Id "5" :=
  (ownerId_roundtrip_characterization (OwnerId.Id "5")).1.mpr
    (Or.inr (Or.inl ⟨"5", rfl, by decide⟩))

/-- Claim C7: encoding an `OwnerId` yields `"me"` for `Me` and the
contained string unchanged for `Id` and `Email`; no re-validation occurs,
so an `Id` holding non-digit text still encodes to that text. -/
theorem ownerId_serialize_no_validation (s : String) :
    OwnerId.serializeStr OwnerId.Me = "me" ∧
    OwnerId.serializeStr (OwnerId.Id s) = s ∧
    OwnerId.serializeStr (OwnerId.Email s) = s ∧
    OwnerId.serializeStr (OwnerId.Id "not a digit string") = "not a digit string" :=
  ⟨rfl, rfl, rfl, rfl⟩

/-- Claim C8: for every input string `x`, encoding the `OwnerId` obtained
by decoding `x` yields `x` back exactly. -/
theorem ownerId_encode_decode_roundtrip (x : String) :
    OwnerId.serializeStr (ownerIdDecode x) = x := by
  by_cases h : x = "me"
  · subst h; rfl
  · by_cases hd : x.data.all Char.isDigit
    · simp [ownerIdDecode, OwnerIdVisitor.visit_str, h, hd, OwnerId.serializeStr]
    · simp [ownerIdDecode, OwnerIdVisitor.visit_str, h, hd, OwnerId.serializeStr]

/-- Claim C10: the owned-string (`visit_string`) and borrowed-string
(`visit_str`) deserialization paths of the `OwnerId` visitor produce equal
values on every input. -/
theorem ownerId_visitor_paths_agree (s : String) :
    OwnerIdVisitor.visit_string s = OwnerIdVisitor.visit_str s := rfl

/-! ### Closed-enum and tagged-union decode properties -/

/-- Claim C4: for each closed enum, decoding any text outside its
documented wire set is a decode error (never a default variant); decoding
`"ARCHIVED"` yields `Archived` while decoding `"DELETED"` errors. -/
theorem closed_enum_decode_rejects_unknown (s : String) :
    (s ∉ courseStateWireSet → CourseState.fromWireStr s = none) ∧
    (s ∉ calculationTypeWireSet → CalculationType.fromWireStr s = none) ∧
    (s ∉ displaySettingWireSet → DisplaySetting.fromWireStr s = none) ∧
    (s ∉ driveFileShareModeWireSet → DriveFileShareMode.fromWireStr s = none) ∧
    (s ∉ assigneeModeWireSet → AssigneeMode.fromWireStr s = none) ∧
    (s ∉ courseWorkTypeWireSet → CourseWorkType.fromWireStr s = none) ∧
    CourseState.fromWireStr "ARCHIVED" = some CourseState.Archived ∧
    CourseState.fromWireStr "DELETED" = none := by
  refine ⟨fun h => ?_, fun h => ?_, fun h => ?_, fun h => ?_, fun h => ?_,
    fun h => ?_, by decide, by decide⟩
  · simp [courseStateWireSet] at h
    obtain ⟨h1, h2, h3, h4, h5, h6⟩ := h
    simp [CourseState.fromWireStr, h1, h2, h3, h4, h5, h6]
  · simp [calculationTypeWireSet] at h
    obtain ⟨h1, h2, h3⟩ := h
    simp [CalculationType.fromWireStr, h1, h2, h3]
  · simp [displaySettingWireSet] at h
    obtain ⟨h1, h2, h3, h4⟩ := h
    simp [DisplaySetting.fromWireStr, h1, h2, h3, h4]
  · simp [driveFileShareModeWireSet] at h
    obtain ⟨h1, h2, h3, h4⟩ := h
    simp [DriveFileShareMode.fromWireStr, h1, h2, h3, h4]
  · simp [assigneeModeWireSet] at h
    obtain ⟨h1, h2, h3⟩ := h
    simp [AssigneeMode.fromWireStr, h1, h2, h3]
  · simp [courseWorkTypeWireSet] at h
    obtain ⟨h1, h2, h3, h4⟩ := h
    simp [CourseWorkType.fromWireStr, h1, h2, h3, h4]

/-- Witness for C4 at a string outside every wire set. -/
theorem closed_enum_decode_rejects_unknown_witness :
    CourseState.fromWireStr "SOMETHING_ELSE" = none :=
  (closed_enum_decode_rejects_unknown "SOMETHING_ELSE").1 (by decide)

/-- Claim C5: decoding a `Material` payload with an unrecognized
discriminator key is a decode error; a recognized key populates exactly
that variant with all of its declared fields; and encoding emits only the
active variant under its discriminator key. -/
theorem material_tagged_union_codec :
    (∀ (k : String) (v : Json), k ≠ "driveFile" → k ≠ "youtubeVideo" →
      k ≠ "link" → k ≠ "form" → materialFromJson (Json.obj [(k, v)]) = none) ∧
    (∀ f : DriveFile, materialFromJson (Json.obj [("driveFile", driveFileToJson f)]) =
      some (Material.DriveFile f)) ∧
    (∀ v : YouTubeVideo,
      materialFromJson (Json.obj [("youtubeVideo", youTubeVideoToJson v)]) =
        some (Material.YoutubeVideo v)) ∧
    (∀ l : Link, materialFromJson (Json.obj [("link", linkToJson l)]) =
      some (Material.Link l)) ∧
    (∀ f : Form, materialFromJson (Json.obj [("form", formToJson f)]) =
      some (Material.Form f)) ∧
    (∀ f : DriveFile, materialToJson (Material.DriveFile f) =
      Json.obj [("driveFile", driveFileToJson f)]) ∧
    (∀ v : YouTubeVideo, materialToJson (Material.YoutubeVideo v) =
      Json.obj [("youtubeVideo", youTubeVideoToJson v)]) ∧
    (∀ l : Link, materialToJson (Material.Link l) =
      Json.obj [("link", linkToJson l)]) ∧
    (∀ f : Form, materialToJson (Material.Form f) =
      Json.obj [("form", formToJson f)]) := by
  refine ⟨fun k v h1 h2 h3 h4 => ?_, fun f => rfl, fun v => rfl, fun l => rfl,
    fun f => rfl, fun f => rfl, fun v => rfl, fun l => rfl, fun f => rfl⟩
  simp [materialFromJson, h1, h2, h3, h4]

/-- Witness for C5 at an unrecognized discriminator key. -/
theorem material_tagged_union_codec_witness :
    materialFromJson (Json.obj [("unknownKind", Json.null)]) = none :=
  material_tagged_union_codec.1 "unknownKind" Json.null (by decide) (by decide)
    (by decide) (by decide)

/-! ### Write-shape serialization and deserialization properties -/

/-- Counterexample to claim C2 as stated: serializing a `CourseModify`
whose every optional field is unset still emits the `name` field, with a
JSON `null` value — the unset field is present as `null`, not absent. -/
theorem courseModify_serialize_null_cex :
    Json.lookupKey (courseModifyToJson ⟨none, none, none, none, none, none, none⟩)
      "name" = some Json.null ∧
    "name" ∈ Json.keys (courseModifyToJson ⟨none, none, none, none, none, none, none⟩) :=
  ⟨rfl, by decide⟩

/-- Claim C2 (amended): serializing a `CourseCreate` or `CourseModify`
always emits every declared field, and each unset optional field is
emitted with a JSON `null` value (present as `null`, not absent). -/
theorem writeShape_unset_fields_serialize_null (c : CourseModify) (d : CourseCreate) :
    Json.keys (courseModifyToJson c) =
      ["name", "section", "descriptionHeading", "description", "room",
       "ownerId", "courseState"] ∧
    Json.keys (courseCreateToJson d) =
      ["id", "name", "section", "descriptionHeading", "description", "room",
       "ownerId", "courseState"] ∧
    (c.name = none → Json.lookupKey (courseModifyToJson c) "name" = some Json.null) ∧
    (c.«section» = none →
      Json.lookupKey (courseModifyToJson c) "section" = some Json.null) ∧
    (c.description_heading = none →
      Json.lookupKey (courseModifyToJson c) "descriptionHeading" = some Json.null) ∧
    (c.description = none →
      Json.lookupKey (courseModifyToJson c) "description" = some Json.null) ∧
    (c.room = none → Json.lookupKey (courseModifyToJson c) "room" = some Json.null) ∧
    (c.owner_id = none →
      Json.lookupKey (courseModifyToJson c) "ownerId" = some Json.null) ∧
    (c.course_state = none →
      Json.lookupKey (courseModifyToJson c) "courseState" = some Json.null) ∧
    (d.id = none → Json.lookupKey (courseCreateToJson d) "id" = some Json.null) ∧
    (d.«section» = none →
      Json.lookupKey (courseCreateToJson d) "section" = some Json.null) ∧
    (d.description_heading = none →
      Json.lookupKey (courseCreateToJson d) "descriptionHeading" = some Json.null) ∧
    (d.description = none →
      Json.lookupKey (courseCreateToJson d) "description" = some Json.null) ∧
    (d.room = none → Json.lookupKey (courseCreateToJson d) "room" = some Json.null) ∧
    (d.course_state = none →
      Json.lookupKey (courseCreateToJson d) "courseState" = some Json.null) := by
  refine ⟨rfl, rfl, fun h => ?_, fun h => ?_, fun h => ?_, fun h => ?_, fun h => ?_,
    fun h => ?_, fun h => ?_, fun h => ?_, fun h => ?_, fun h => ?_, fun h => ?_,
    fun h => ?_, fun h => ?_⟩ <;>
    simp [courseModifyToJson, courseCreateToJson, Json.lookupKey, findField,
      optJson, h]

/-- Witness for the amended C2 at fully unset write-shape values. -/
theorem writeShape_unset_fields_serialize_null_witness :
    Json.lookupKey (courseModifyToJson ⟨none, none, none, none, none, none, none⟩)
      "section" = some Json.null :=
  (writeShape_unset_fields_serialize_null ⟨none, none, none, none, none, none, none⟩
    ⟨none, "Biology", none, none, none, none, OwnerId.Me, none⟩).2.2.2.1 rfl

set_option maxHeartbeats 4000000 in
/-- Claim C9: every field of `CourseModify` is optional — a payload
supplying any subset of the declared fields (with well-formed values)
deserializes successfully, each absent field left unset. -/
theorem courseModify_subset_payload_decodes (name sec dh desc room : Option String)
    (oid : Option String) (cs : Option CourseState) :
    courseModifyFromJson (courseModifySubsetPayload name sec dh desc room oid cs) =
      some ⟨name, sec, dh, desc, room, oid.map ownerIdDecode, cs⟩ := by
  cases cs with
  | none =>
      cases name <;> cases sec <;> cases dh <;> cases desc <;> cases room <;>
        cases oid <;> rfl
  | some c =>
      cases c <;> cases name <;> cases sec <;> cases dh <;> cases desc <;>
        cases room <;> cases oid <;> rfl
